import Mathlib

/-!
# Verification of the DynDNS reconciliation engine

Shallow embedding of the reconciliation core of the `dyndns` repository:
the SQLite-backed persistent store (`src/database.py`), the provider DNS
client (`src/api.py`), the credential vault (`src/encryption.py`) and the
per-record diff/converge logic of the reconciliation engine
(`src/application.py`).

The store is modelled as an explicit state (lists of rows), SQL
`CURRENT_TIMESTAMP` as an explicit `now : Nat` argument, Python keyword
arguments (`**kwargs`) as association lists of `(field name, SQL value)`
pairs, and the provider HTTP interaction as an oracle supplying the
outcome of each call.
-/

namespace DynDNS

/-- A dynamically typed SQLite value, as passed through the generic
`**kwargs` update helpers of `database.py`. -/
inductive Value where
  | null : Value
  | int (n : Int) : Value
  | text (s : String) : Value
deriving DecidableEq, Repr

/-- Python truthiness of a `Value` (the `if updates["enabled"]` style tests). -/
def Value.truthy : Value → Bool
  | .null => false
  | .int n => n != 0
  | .text s => s != ""

/-- Coerce a `Value` to the `TEXT NOT NULL` column representation. -/
def Value.asText : Value → String
  | .null => ""
  | .int n => toString n
  | .text s => s

/-- Coerce a `Value` to a nullable `TEXT` column representation. -/
def Value.asOptText : Value → Option String
  | .null => none
  | .int n => some (toString n)
  | .text s => some s

/-- Coerce a `Value` to an `INTEGER` column representation. -/
def Value.asNat : Value → Nat
  | .null => 0
  | .int n => n.toNat
  | .text _ => 0

/-- Coerce a `Value` to a nullable numeric column (`last_synced_at`). -/
def Value.asOptNat : Value → Option Nat
  | .null => none
  | .int n => some n.toNat
  | .text _ => none

/-- Python truthiness of a nullable string field
(`record.get("provider_record_id")`): `None` and the empty string are falsy. -/
def truthyOpt : Option String → Bool
  | none => false
  | some s => s != ""

/-- A row of the `zones` table (`database.py`, `create_tables`). -/
structure ZoneRow where
  id : Nat
  zone_name : String
  provider_zone_id : Option String
  enabled : Bool
  created_at : Nat
  updated_at : Nat
deriving DecidableEq, Repr

/-- A row of the `records` table (`database.py`, `create_tables`). -/
structure RecordRow where
  id : Nat
  zone_id : Nat
  record_name : String
  record_type : String
  provider_record_id : Option String
  ttl : Nat
  enabled : Bool
  managed : Bool
  sync_status : String
  last_synced_at : Option Nat
  created_at : Nat
  updated_at : Nat
deriving DecidableEq, Repr

/-- A row of the `ip_addresses` table: the IP last written for a record,
unique per `record_id`. -/
structure IPRow where
  record_id : Nat
  ip_address : String
  last_checked_at : Nat
  last_changed_at : Nat
deriving DecidableEq, Repr

/-- A row of the `dns_updates` audit table. -/
structure DnsUpdateRow where
  record_id : Nat
  old_ip : Option String
  new_ip : Option String
  status : String
  error_message : Option String
  updated_at : Nat
deriving DecidableEq, Repr

/-- The persistent store: the tables touched by the reconciliation engine. -/
structure Database where
  zones : List ZoneRow
  records : List RecordRow
  ip_addresses : List IPRow
  dns_updates : List DnsUpdateRow
deriving DecidableEq, Repr

namespace Database

/-- Model of `Database.get_zone_by_id` (`database.py`): `SELECT * FROM zones WHERE id = ?`. -/
def get_zone_by_id (db : Database) (zone_id : Nat) : Option ZoneRow :=
  db.zones.find? (fun z => z.id == zone_id)

/-- Model of `Database.get_record_by_id` (`database.py`). -/
def get_record_by_id (db : Database) (record_id : Nat) : Option RecordRow :=
  db.records.find? (fun r => r.id == record_id)

/-- Model of `Database.get_ip_address` (`database.py`): the unique `ip_addresses`
row for a record, if any. -/
def get_ip_address (db : Database) (record_id : Nat) : Option IPRow :=
  db.ip_addresses.find? (fun r => r.record_id == record_id)

/-- Fresh `AUTOINCREMENT` id for the `records` table. -/
def next_record_id (db : Database) : Nat :=
  (db.records.map (fun r => r.id)).foldr max 0 + 1

/-- Model of `Database.add_record` (`database.py`): inserts a record row; the
Python defaults are `provider_record_id=None`, `ttl=3600`, `enabled=True`,
`managed=True`, `sync_status="synced"`. Returns the id of the new record and
the new store. -/
def add_record (db : Database) (zone_id : Nat) (record_name : String)
    (record_type : String) (now : Nat)
    (provider_record_id : Option String := none) (ttl : Nat := 3600)
    (enabled : Bool := true) (managed : Bool := true)
    (sync_status : String := "synced") : Nat × Database :=
  let rid := db.next_record_id
  let row : RecordRow :=
    { id := rid, zone_id := zone_id, record_name := record_name,
      record_type := record_type, provider_record_id := provider_record_id,
      ttl := ttl, enabled := enabled, managed := managed,
      sync_status := sync_status, last_synced_at := some now,
      created_at := now, updated_at := now }
  (rid, { db with records := db.records ++ [row] })

/-- Model of `Database.update_record_provider_id` (`database.py`):
`UPDATE records SET provider_record_id = ?, updated_at = CURRENT_TIMESTAMP
WHERE id = ?`. Returns the affected row count and the new store. -/
def update_record_provider_id (db : Database) (record_id : Nat)
    (provider_record_id : String) (now : Nat) : Nat × Database :=
  let n := (db.records.filter (fun r => r.id == record_id)).length
  (n, { db with records := db.records.map (fun r =>
    if r.id == record_id then
      { r with provider_record_id := some provider_record_id, updated_at := now }
    else r) })

/-- The mutable-field whitelist of `Database.update_record`. -/
def record_allowed_fields : List String :=
  ["record_name", "record_type", "provider_record_id", "ttl", "enabled",
   "managed", "sync_status", "last_synced_at"]

/-- Apply one whitelisted `SET field = value` assignment to a record row. -/
def apply_record_field (r : RecordRow) (kv : String × Value) : RecordRow :=
  if kv.1 == "record_name" then { r with record_name := kv.2.asText }
  else if kv.1 == "record_type" then { r with record_type := kv.2.asText }
  else if kv.1 == "provider_record_id" then
    { r with provider_record_id := kv.2.asOptText }
  else if kv.1 == "ttl" then { r with ttl := kv.2.asNat }
  else if kv.1 == "enabled" then { r with enabled := kv.2.truthy }
  else if kv.1 == "managed" then { r with managed := kv.2.truthy }
  else if kv.1 == "sync_status" then { r with sync_status := kv.2.asText }
  else if kv.1 == "last_synced_at" then { r with last_synced_at := kv.2.asOptNat }
  else r

/-- Model of `Database.update_record` (`database.py`): filters the keyword
arguments against the whitelist; with no surviving field it returns 0
rows affected and leaves the store untouched, otherwise it applies the
surviving assignments (plus `updated_at = CURRENT_TIMESTAMP`) to every
row matching the id. The Python code coerces `enabled`/`managed` through
truthiness before binding them, which `apply_record_field` reproduces. -/
def update_record (db : Database) (record_id : Nat)
    (kwargs : List (String × Value)) (now : Nat) : Nat × Database :=
  let updates := kwargs.filter (fun kv => record_allowed_fields.contains kv.1)
  if updates.isEmpty then (0, db)
  else
    let n := (db.records.filter (fun r => r.id == record_id)).length
    (n, { db with records := db.records.map (fun r =>
      if r.id == record_id then
        { (updates.foldl apply_record_field r) with updated_at := now }
      else r) })

/-- The mutable-field whitelist of `Database.update_zone`. -/
def zone_allowed_fields : List String :=
  ["zone_name", "provider_zone_id", "enabled"]

/-- Apply one whitelisted `SET field = value` assignment to a zone row. -/
def apply_zone_field (z : ZoneRow) (kv : String × Value) : ZoneRow :=
  if kv.1 == "zone_name" then { z with zone_name := kv.2.asText }
  else if kv.1 == "provider_zone_id" then
    { z with provider_zone_id := kv.2.asOptText }
  else if kv.1 == "enabled" then { z with enabled := kv.2.truthy }
  else z

/-- Model of `Database.update_zone` (`database.py`): same whitelist pattern as
`update_record`, over `zones`. -/
def update_zone (db : Database) (zone_id : Nat)
    (kwargs : List (String × Value)) (now : Nat) : Nat × Database :=
  let updates := kwargs.filter (fun kv => zone_allowed_fields.contains kv.1)
  if updates.isEmpty then (0, db)
  else
    let n := (db.zones.filter (fun z => z.id == zone_id)).length
    (n, { db with zones := db.zones.map (fun z =>
      if z.id == zone_id then
        { (updates.foldl apply_zone_field z) with updated_at := now }
      else z) })

/-- Model of `Database.update_ip_address` (`database.py`): updates the unique
`ip_addresses` row for the record (refreshing `last_checked_at`, and
`last_changed_at` too when `changed`), or inserts it when absent. -/
def update_ip_address (db : Database) (record_id : Nat) (ip_address : String)
    (changed : Bool) (now : Nat) : Database :=
  match db.get_ip_address record_id with
  | some _ =>
    { db with ip_addresses := db.ip_addresses.map (fun r =>
      if r.record_id == record_id then
        if changed then
          { r with ip_address := ip_address, last_checked_at := now,
                   last_changed_at := now }
        else
          { r with ip_address := ip_address, last_checked_at := now }
      else r) }
  | none =>
    { db with ip_addresses := db.ip_addresses ++
      [{ record_id := record_id, ip_address := ip_address,
         last_checked_at := now, last_changed_at := now }] }

/-- Model of `Database.log_dns_update` (`database.py`): appends an audit row. -/
def log_dns_update (db : Database) (record_id : Nat) (old_ip : Option String)
    (new_ip : Option String) (status : String)
    (error_message : Option String) (now : Nat) : Database :=
  { db with dns_updates := db.dns_updates ++
    [{ record_id := record_id, old_ip := old_ip, new_ip := new_ip,
       status := status, error_message := error_message, updated_at := now }] }

end Database

/-- The per-row sync-status invariant: a record with
`sync_status = "synced"` has a non-null `provider_record_id`. -/
def rowInv (r : RecordRow) : Bool :=
  r.sync_status != "synced" || r.provider_record_id.isSome

/-- The sync-status invariant of the spec, over the whole store. -/
def recordInv (db : Database) : Bool :=
  db.records.all rowInv

/-- A DNS record as returned by the provider API (`GET /zones/{id}`,
the elements of the `records` array). -/
structure ProviderRecord where
  id : String
  name : String
  type : String
  content : String
  ttl : Nat
  disabled : Bool
deriving DecidableEq, Repr

namespace ProviderDNSClient

/-- An HTTP response as seen by `ProviderDNSClient.update_record`
(`api.py`): its status code and the `code` field of its JSON body, when
a body is present and carries one. -/
structure HTTPResponse where
  status_code : Nat
  body_code : Option String
deriving DecidableEq, Repr

/-- Model of `error_data.get("code", "UNKNOWN")` over
`error_data = response.json() if response.text else ` the empty dict. -/
def getCode : Option String → String
  | none => "UNKNOWN"
  | some c => c

/-- Result of one `update_record` call: returned `True`, returned
`False`, or raised `RecordNotFoundError`. -/
inductive UpdateResult where
  | ok : UpdateResult
  | failed : UpdateResult
  | recordNotFound : UpdateResult
deriving DecidableEq, Repr

/-- Truthiness of a `requests.Response`: its `__bool__` delegates to
`ok`, which is true exactly for status codes below 400. Every guard of
the form `if response and response.status_code == ...` in `api.py`
therefore tests this, not mere presence of a response. -/
def HTTPResponse.truthy (r : HTTPResponse) : Bool :=
  r.status_code < 400

/-- The `for attempt in range(max_retries)` loop of
`ProviderDNSClient.update_record` (`api.py`). `put attempt` is the
response of the `self.client.put` call of that attempt (`none` when the
transport-level retries inside `HTTPClient` were exhausted without a
response). Each `elif response and response.status_code == ...` guard
requires the response to be truthy (status below 400), so for an
error-status response every guard is false and control reaches the
final `else`, which returns `False`; the 401-retry, 429 and 404
branches are consequently dead code. The fuel argument is the number of
loop iterations left; falling off the loop returns `False`. -/
def update_record_go (put : Nat → Option HTTPResponse) (max_retries : Nat) :
    Nat → Nat → UpdateResult
  | 0, _ => .failed
  | fuel + 1, attempt =>
    match put attempt with
    | some resp =>
      if resp.truthy && (resp.status_code == 200) then .ok
      else if resp.truthy && (resp.status_code == 401) then
        if attempt < max_retries - 1 then
          update_record_go put max_retries fuel (attempt + 1)
        else .failed
      else if resp.truthy && (resp.status_code == 429) then .failed
      else if resp.truthy && (resp.status_code == 404) then
        if getCode resp.body_code == "RECORD_NOT_FOUND" then .recordNotFound
        else .failed
      else if resp.truthy then .failed
      else .failed
    | none => .failed

/-- Model of `ProviderDNSClient.update_record` (`api.py`): `max_retries = 2`,
attempts numbered from 0, with the `requests` truthiness semantics of
the response guards. -/
def update_record (put : Nat → Option HTTPResponse) : UpdateResult :=
  update_record_go put 2 2 0

end ProviderDNSClient

namespace EncryptionManager

/-- The symmetric cipher behind `EncryptionManager` — the external
`cryptography.fernet.Fernet` object, abstracted as its encrypt/decrypt
functions. -/
structure Cipher where
  enc : String → String
  dec : String → String

/-- Result of `encrypt`/`decrypt`: the returned string, or the raised
exception (`EncryptionError` for an uninitialized cipher, `ValueError`
for empty input). -/
inductive CryptResult where
  | ok (s : String) : CryptResult
  | encryptionError (msg : String) : CryptResult
  | valueError (msg : String) : CryptResult
deriving DecidableEq, Repr

/-- Model of `EncryptionManager.encrypt` (`encryption.py`): guards on the cipher
being initialized and the data being non-empty, then delegates to the
cipher. -/
def encrypt (cipher : Option Cipher) (data : String) : CryptResult :=
  match cipher with
  | none => .encryptionError "Encryption not initialized"
  | some c =>
    if data == "" then .valueError "Cannot encrypt empty data"
    else .ok (c.enc data)

/-- Model of `EncryptionManager.decrypt` (`encryption.py`): the mirror image of
`encrypt`. -/
def decrypt (cipher : Option Cipher) (encrypted_data : String) : CryptResult :=
  match cipher with
  | none => .encryptionError "Encryption not initialized"
  | some c =>
    if encrypted_data == "" then .valueError "Cannot decrypt empty data"
    else .ok (c.dec encrypted_data)

end EncryptionManager

namespace Application

/-- The configuration fields of `ConfigManager` that the converge phase
reads. -/
structure Config where
  daemon_sync_checks : Bool
deriving DecidableEq, Repr

/-- The detected public addresses (`NetworkData.ipv4_address` /
`ipv6_address`), `none` when not detected. -/
structure Network where
  ipv4_address : Option String
  ipv6_address : Option String
deriving DecidableEq, Repr

/-- One entry of `zone["records"]` inside a cycle: the loaded record row
together with the in-memory working fields the diff phase adds
(`current_ip`, `needs_update`, `old_ip`, `new_ip`). A missing
`needs_update` key and a stored `False` are indistinguishable to
`record.get("needs_update")`, so it is modelled as a `Bool` defaulting
to `false`. -/
structure MemRecord where
  id : Nat
  zone_id : Nat
  record_name : String
  record_type : String
  provider_record_id : Option String
  ttl : Nat
  current_ip : Option String
  needs_update : Bool := false
  old_ip : Option String := none
  new_ip : Option String := none
deriving DecidableEq, Repr

/-- The provider-facing oracle for one cycle: the outcome of
`client.update_record` per local record id, of `client.get_zone_records`
per local zone id (`none` covering both a `None` return and a raised
exception, which the verification path treats alike), and whether
`_get_provider_client` yields a client for the zone. -/
inductive UpdateOutcome where
  | ok : UpdateOutcome
  | failed : UpdateOutcome
  | notFound : UpdateOutcome
  | exn (msg : String) : UpdateOutcome
deriving DecidableEq, Repr

structure ProviderOracle where
  update : Nat → UpdateOutcome
  fetch : Nat → Option (List ProviderRecord)
  clientOk : Nat → Bool

/-- The record-diff body of `Application._step_process_data`
(`application.py`): given a record whose target address `nip` was
detected, flag it. -/
def diffWith (r : MemRecord) (nip : String) : MemRecord :=
  let old := r.current_ip
  if !truthyOpt r.provider_record_id then
    { r with needs_update := true, old_ip := old, new_ip := some nip }
  else if old != some nip then
    { r with needs_update := true, old_ip := old, new_ip := some nip }
  else
    { r with needs_update := false }

/-- The per-record loop body of `Application._step_process_data`:
dispatch on the record type, skipping types this tool does not manage
and records whose address type was not detected. -/
def process_record_data (net : Network) (r : MemRecord) : MemRecord :=
  if r.record_type == "A" then
    match net.ipv4_address with
    | none => r
    | some nip => diffWith r nip
  else if r.record_type == "AAAA" then
    match net.ipv6_address with
    | none => r
    | some nip => diffWith r nip
  else r

/-- Model of `Application._update_provider_record` (`application.py`): issue the
provider update for one record, with orphan detection. Returns the
boolean result together with the store (which the orphan and
sync-success paths mutate). -/
def update_provider_record (cfg : Config) (p : ProviderOracle)
    (db : Database) (r : MemRecord) (now : Nat) : Bool × Database :=
  if !truthyOpt r.provider_record_id then (false, db)
  else
    match db.get_zone_by_id r.zone_id with
    | none => (false, db)
    | some z =>
      if !truthyOpt z.provider_zone_id then (false, db)
      else if !p.clientOk z.id then (false, db)
      else
        match p.update r.id with
        | .ok =>
          if cfg.daemon_sync_checks then
            (true, (db.update_record r.id
              [("sync_status", .text "synced"), ("last_synced_at", .int now)]
              now).2)
          else (true, db)
        | .failed =>
          if cfg.daemon_sync_checks then
            match p.fetch z.id with
            | some prs =>
              if !prs.any (fun pr => some pr.id == r.provider_record_id) then
                (false, (db.update_record r.id
                  [("provider_record_id", .null), ("sync_status", .text "orphaned")]
                  now).2)
              else (false, db)
            | none => (false, db)
          else (false, db)
        | .notFound =>
          if cfg.daemon_sync_checks then
            (false, (db.update_record r.id
              [("provider_record_id", .null), ("sync_status", .text "orphaned")]
              now).2)
          else (false, db)
        | .exn _ => (false, db)

/-- The per-record loop body of `Application._step_save_results`
(`application.py`): refresh `last_checked_at` for unchanged records,
otherwise run the provider update and persist the outcome (IP state,
audit entry). Returns the store and the `(succeeded, failed)`
count increments. -/
def process_record_save (cfg : Config) (p : ProviderOracle) (net : Network)
    (db : Database) (r : MemRecord) (now : Nat) : Database × Nat × Nat :=
  if !r.needs_update then
    if r.record_type == "A" then
      match net.ipv4_address with
      | some ip => (db.update_ip_address r.id ip false now, 0, 0)
      | none => (db, 0, 0)
    else if r.record_type == "AAAA" then
      match net.ipv6_address with
      | some ip => (db.update_ip_address r.id ip false now, 0, 0)
      | none => (db, 0, 0)
    else (db, 0, 0)
  else
    if !truthyOpt r.provider_record_id then
      (db.log_dns_update r.id r.old_ip r.new_ip "failed"
        (some "Missing provider_record_id after sync") now, 0, 1)
    else
      let res := update_provider_record cfg p db r now
      if res.1 then
        let db2 := res.2.update_ip_address r.id (r.new_ip.getD "") true now
        (db2.log_dns_update r.id r.old_ip r.new_ip "success" none now, 1, 0)
      else
        (res.2.log_dns_update r.id r.old_ip r.new_ip "failed"
          (some "Provider API update failed") now, 0, 1)

/-- The record loop of `Application._step_save_results` over the
records of the loaded zones: failures of one record never abort the rest. -/
def save_records (cfg : Config) (p : ProviderOracle) (net : Network)
    (now : Nat) : Database → List MemRecord → Database × Nat × Nat
  | db, [] => (db, 0, 0)
  | db, r :: rest =>
    let step := process_record_save cfg p net db r now
    let tail := save_records cfg p net now step.1 rest
    (tail.1, step.2.1 + tail.2.1, step.2.2 + tail.2.2)

/-- Model of `rstrip(".")` — strip every trailing dot of a DNS name, as the
matching step of `Application._sync_provider_ids` normalizes names. -/
def rstripDots (s : String) : String :=
  String.mk ((s.data.reverse.dropWhile (fun c => c == '.')).reverse)

/-- The matching step of `Application._sync_provider_ids`
(`application.py`): find the first provider record with the same
normalized name and type, and backfill its id into the local row. The
same step runs both in the initial match and in the re-match after
record creation. -/
def sync_match (provider_records : List ProviderRecord) (db : Database)
    (dbr : RecordRow) (now : Nat) : Database :=
  match provider_records.find? (fun pr =>
      rstripDots pr.name == rstripDots dbr.record_name
      && pr.type == dbr.record_type) with
  | some pr => (db.update_record_provider_id dbr.id pr.id now).2
  | none => db

/-- The provider has confirmed the absence of the record: either the
update call raised `RecordNotFoundError`, or the update returned failure
and a successfully fetched zone-record listing does not contain the
record id (the verification path of `_update_provider_record`). -/
def confirmedAbsent (p : ProviderOracle) (db : Database) (r : MemRecord) : Prop :=
  p.update r.id = .notFound ∨
  (p.update r.id = .failed ∧ ∃ z prs, db.get_zone_by_id r.zone_id = some z ∧
    p.fetch z.id = some prs ∧
    prs.any (fun pr => some pr.id == r.provider_record_id) = false)

/-- An update failure that the provider has not confirmed as an absent
record: a missing provider record id, a missing zone or provider zone
id, no API client, an exception from the update call, a failure whose
verification fetch did not run, did not answer, or found the record
still present, or a `RecordNotFoundError` with the recovery feature
(`daemon_sync_checks`) off. -/
def unconfirmedFailure (cfg : Config) (p : ProviderOracle) (db : Database)
    (r : MemRecord) : Prop :=
  truthyOpt r.provider_record_id = false
  ∨ db.get_zone_by_id r.zone_id = none
  ∨ (∃ z, db.get_zone_by_id r.zone_id = some z ∧
      (truthyOpt z.provider_zone_id = false
       ∨ p.clientOk z.id = false
       ∨ (∃ m, p.update r.id = .exn m)
       ∨ (p.update r.id = .failed ∧
          (cfg.daemon_sync_checks = false
           ∨ p.fetch z.id = none
           ∨ ∃ prs, p.fetch z.id = some prs ∧
              prs.any (fun pr => some pr.id == r.provider_record_id) = true))
       ∨ (p.update r.id = .notFound ∧ cfg.daemon_sync_checks = false)))

end Application

/-! ### Concrete fixtures

Sample rows, stores, records in flight, oracles and configurations used
to instantiate the theorems on concrete inputs. -/

def zone1 : ZoneRow :=
  { id := 1, zone_name := "example.com", provider_zone_id := some "Z1",
    enabled := true, created_at := 0, updated_at := 0 }

def recSynced : RecordRow :=
  { id := 1, zone_id := 1, record_name := "www.example.com",
    record_type := "A", provider_record_id := some "R1", ttl := 3600,
    enabled := true, managed := true, sync_status := "synced",
    last_synced_at := none, created_at := 0, updated_at := 0 }

def recLocalOnly : RecordRow := { recSynced with sync_status := "local_only" }

def recOrphanNoId : RecordRow :=
  { recSynced with provider_record_id := none, sync_status := "orphaned" }

def db0 : Database := ⟨[zone1], [], [], []⟩

def dbSynced : Database :=
  ⟨[zone1], [recSynced], [⟨1, "1.2.3.4", 0, 0⟩], []⟩

def dbLocalOnly : Database :=
  ⟨[zone1], [recLocalOnly], [⟨1, "1.2.3.4", 0, 0⟩], []⟩

def dbOrphan : Database := ⟨[zone1], [recOrphanNoId], [], []⟩

def memNeedsUpdate : Application.MemRecord :=
  { id := 1, zone_id := 1, record_name := "www.example.com",
    record_type := "A", provider_record_id := some "R1", ttl := 3600,
    current_ip := some "1.2.3.4", needs_update := true,
    old_ip := some "1.2.3.4", new_ip := some "5.6.7.8" }

def memFresh : Application.MemRecord :=
  { id := 1, zone_id := 1, record_name := "www.example.com",
    record_type := "A", provider_record_id := some "R1", ttl := 3600,
    current_ip := some "1.2.3.4" }

def oracleOk : Application.ProviderOracle :=
  ⟨fun _ => .ok, fun _ => some [], fun _ => true⟩

def oracleExn : Application.ProviderOracle :=
  ⟨fun _ => .exn "timeout", fun _ => some [], fun _ => true⟩

def netV4 : Application.Network := ⟨some "5.6.7.8", none⟩

def netV6only : Application.Network := ⟨none, some "2001:db8::1"⟩

def cfgChecks : Application.Config := ⟨true⟩

def cfgNoChecks : Application.Config := ⟨false⟩

def idCipher : EncryptionManager.Cipher := ⟨fun s => s, fun s => s⟩

def prsDotted : List ProviderRecord :=
  [⟨"PR1", "www.example.com.", "A", "5.6.7.8", 3600, false⟩]

/-! ## Theorems -/

/-- C4: in the diff phase, for every enabled A or AAAA record whose
target address was detected, a record with a null `provider_record_id`
is flagged as needing update unconditionally, and a record with a
non-null (non-empty) `provider_record_id` is flagged if and only if its
cached IP differs from the target address for its type. (The enabled
records are exactly those the cycle loads and feeds to this step.) -/
theorem c4_diff_flags_needs_update (r : Application.MemRecord)
    (net : Application.Network) (nip : String)
    (htype : r.record_type = "A" ∨ r.record_type = "AAAA")
    (hdet : (if r.record_type = "A" then net.ipv4_address
             else net.ipv6_address) = some nip) :
    (r.provider_record_id = none →
      (Application.process_record_data net r).needs_update = true)
    ∧ (∀ s, r.provider_record_id = some s → s ≠ "" →
        ((Application.process_record_data net r).needs_update = true ↔
          r.current_ip ≠ some nip)) := by
  have main : ∀ m : Application.MemRecord,
      (m.provider_record_id = none → (Application.diffWith m nip).needs_update = true)
      ∧ (∀ s, m.provider_record_id = some s → s ≠ "" →
          ((Application.diffWith m nip).needs_update = true ↔
            m.current_ip ≠ some nip)) := by
    intro m
    constructor
    · intro hpid
      simp [Application.diffWith, hpid, truthyOpt]
    · intro s hs hne
      by_cases hc : m.current_ip = some nip
      · simp [Application.diffWith, hs, truthyOpt, hne, hc]
      · simp [Application.diffWith, hs, truthyOpt, hne, hc]
  rcases htype with h | h
  · rw [if_pos h] at hdet
    simpa [Application.process_record_data, h, hdet] using main r
  · have hA : r.record_type ≠ "A" := by rw [h]; decide
    rw [if_neg hA] at hdet
    simpa [Application.process_record_data, h, hdet] using main r

/-- Witness for C4: a record with a confirmed provider id, cached IP
1.2.3.4 and detected IPv4 5.6.7.8 is flagged. -/
theorem c4_witness :
    (Application.process_record_data netV4 memFresh).needs_update = true := by
  have h := c4_diff_flags_needs_update memFresh netV4 "5.6.7.8"
    (Or.inl rfl) (by decide)
  exact (h.2 "R1" rfl (by decide)).mpr (by decide)

/-- C6 (code bug): under the `requests` truthiness of `if response`
(ok, i.e. status below 400), a first response with any error status —
a 401 included — is falsy, so `update_record` falls through every
status branch to the final `else` and returns failure immediately: the
retry-once-on-401 that the claim (and the retry scaffolding, comments
and log messages inside `api.py`) describe never runs, and no later
attempt is consulted. -/
theorem c6_no_retry_on_error_status
    (put : Nat → Option ProviderDNSClient.HTTPResponse)
    (r0 : ProviderDNSClient.HTTPResponse)
    (h0 : put 0 = some r0) (herr : 400 ≤ r0.status_code) :
    ProviderDNSClient.update_record put = .failed := by
  have ht : r0.truthy = false := by
    simp only [ProviderDNSClient.HTTPResponse.truthy, decide_eq_false_iff_not,
      Nat.not_lt]
    exact herr
  simp [ProviderDNSClient.update_record, ProviderDNSClient.update_record_go,
    h0, ht]

/-- Witness for C6 (code bug): the failing input — a first 401 response
followed by a 200 that the claimed retry would have turned into
success — still fails the call. -/
theorem c6_failing_input_witness :
    ProviderDNSClient.update_record
      (fun i => if i == 0 then some ⟨401, none⟩ else some ⟨200, none⟩)
      = .failed :=
  c6_no_retry_on_error_status _ ⟨401, none⟩ rfl (by decide)

/-- Auxiliary for the dead 404 branch: no fuel and attempt combination
of the update loop can produce `recordNotFound`, because reaching that
branch needs a response that is both truthy (status below 400) and a
404. -/
theorem update_record_go_ne_notfound
    (put : Nat → Option ProviderDNSClient.HTTPResponse) (m : Nat) :
    ∀ fuel attempt,
      ProviderDNSClient.update_record_go put m fuel attempt
        ≠ .recordNotFound := by
  intro fuel
  induction fuel with
  | zero =>
    intro attempt
    simp [ProviderDNSClient.update_record_go]
  | succ n ih =>
    intro attempt
    unfold ProviderDNSClient.update_record_go
    rcases hp : put attempt with _ | r
    · simp
    · by_cases h200 : r.truthy && (r.status_code == 200)
      · simp [h200]
      · by_cases h401 : r.truthy && (r.status_code == 401)
        · simp only [h200, h401, Bool.false_eq_true, if_false, if_true]
          by_cases hlt : attempt < m - 1
          · simpa [hlt] using ih (attempt + 1)
          · simp [hlt]
        · by_cases h429 : r.truthy && (r.status_code == 429)
          · simp [h200, h401, h429]
          · by_cases h404 : r.truthy && (r.status_code == 404)
            · exfalso
              simp [ProviderDNSClient.HTTPResponse.truthy] at h404
              omega
            · by_cases htr : r.truthy
              · have n200 : r.status_code ≠ 200 := by
                  intro h
                  exact h200 (by simp [htr, h])
                have n401 : r.status_code ≠ 401 := by
                  intro h
                  exact h401 (by simp [htr, h])
                have n429 : r.status_code ≠ 429 := by
                  intro h
                  exact h429 (by simp [htr, h])
                have n404 : r.status_code ≠ 404 := by
                  intro h
                  exact h404 (by simp [htr, h])
                simp [h200, h401, h429, h404, htr, n200, n401, n429, n404]
              · simp [h200, h401, h429, h404, htr]

/-- C7 (code bug): `update_record` never raises `RecordNotFoundError`
for any sequence of responses — the 404 branch of `api.py` is dead
under `requests` truthiness — and a first 404 response (whatever its
payload) is reported as an ordinary failure of the call; the claimed
distinct error and the orphan-recovery trigger behind it cannot occur. -/
theorem c7_notfound_never_raised
    (put : Nat → Option ProviderDNSClient.HTTPResponse) :
    ProviderDNSClient.update_record put ≠ .recordNotFound
    ∧ (∀ r, put 0 = some r → r.status_code = 404 →
        ProviderDNSClient.update_record put = .failed) := by
  constructor
  · exact update_record_go_ne_notfound put 2 2 0
  · intro r h0 h404
    have ht : r.truthy = false := by
      simp [ProviderDNSClient.HTTPResponse.truthy, h404]
    simp [ProviderDNSClient.update_record, ProviderDNSClient.update_record_go,
      h0, ht]

/-- Witness for C7 (code bug): the exact claimed trigger — a 404 whose
payload code is RECORD_NOT_FOUND — yields an ordinary failure, not the
distinct not-found error. -/
theorem c7_failing_input_witness :
    ProviderDNSClient.update_record
      (fun _ => some ⟨404, some "RECORD_NOT_FOUND"⟩) ≠ .recordNotFound
    ∧ ProviderDNSClient.update_record
      (fun _ => some ⟨404, some "RECORD_NOT_FOUND"⟩) = .failed := by
  refine ⟨(c7_notfound_never_raised _).1, ?_⟩
  exact (c7_notfound_never_raised _).2 ⟨404, some "RECORD_NOT_FOUND"⟩ rfl rfl

/-- C8: with an initialized cipher whose decrypt inverts its encrypt
(the contract of the external Fernet library) and whose ciphertexts are
non-empty, `decrypt` after `encrypt` recovers every non-empty secret;
`encrypt` of the empty string raises `ValueError` instead of returning a
ciphertext. -/
theorem c8_encrypt_roundtrip (c : EncryptionManager.Cipher) (s : String)
    (hs : s ≠ "") (hrt : ∀ x, c.dec (c.enc x) = x) (hne : c.enc s ≠ "") :
    EncryptionManager.encrypt (some c) s = .ok (c.enc s)
    ∧ EncryptionManager.decrypt (some c) (c.enc s) = .ok s
    ∧ EncryptionManager.encrypt (some c) ""
        = .valueError "Cannot encrypt empty data" := by
  refine ⟨?_, ?_, ?_⟩
  · simp [EncryptionManager.encrypt, hs]
  · simp [EncryptionManager.decrypt, hne, hrt]
  · simp [EncryptionManager.encrypt]

/-- Witness for C8: the identity cipher on the secret string. -/
theorem c8_witness :
    EncryptionManager.encrypt (some idCipher) "secret" = .ok "secret"
    ∧ EncryptionManager.decrypt (some idCipher) "secret" = .ok "secret"
    ∧ EncryptionManager.encrypt (some idCipher) ""
        = .valueError "Cannot encrypt empty data" :=
  c8_encrypt_roundtrip idCipher "secret" (by decide) (fun _ => rfl) (by decide)

/-- C10: in a cycle where some address was detected but none of the
type of a given record was (an A record with only IPv6 detected, or an
AAAA record with only IPv4), the record is skipped entirely: the diff
phase leaves it untouched, and the save phase — for every provider
oracle, so without any provider call — returns the store unchanged, with
no audit entry, no IP-state write and no last-checked refresh, and
counts neither a success nor a failure. -/
theorem c10_skipped_record_untouched (r : Application.MemRecord)
    (net : Application.Network)
    (hmiss : (r.record_type = "A" ∧ net.ipv4_address = none)
      ∨ (r.record_type = "AAAA" ∧ net.ipv6_address = none))
    (_hdet : net.ipv4_address ≠ none ∨ net.ipv6_address ≠ none)
    (hnu : r.needs_update = false) :
    Application.process_record_data net r = r
    ∧ ∀ cfg p db now,
        Application.process_record_save cfg p net db
          (Application.process_record_data net r) now = (db, 0, 0) := by
  rcases hmiss with ⟨hty, hip⟩ | ⟨hty, hip⟩
  · have hd : Application.process_record_data net r = r := by
      simp [Application.process_record_data, hty, hip]
    refine ⟨hd, ?_⟩
    intro cfg p db now
    rw [hd]
    simp [Application.process_record_save, hnu, hty, hip]
  · have hd : Application.process_record_data net r = r := by
      simp [Application.process_record_data, hty, hip]
    refine ⟨hd, ?_⟩
    intro cfg p db now
    rw [hd]
    simp [Application.process_record_save, hnu, hty, hip]

/-- Witness for C10: an A record in a cycle that detected only an IPv6
address, against a concrete store and oracle. -/
theorem c10_witness :
    Application.process_record_data netV6only memFresh = memFresh
    ∧ Application.process_record_save cfgChecks oracleExn netV6only dbSynced
        (Application.process_record_data netV6only memFresh) 5
        = (dbSynced, 0, 0) := by
  have h := c10_skipped_record_untouched memFresh netV6only
    (Or.inl ⟨rfl, rfl⟩) (Or.inr (by decide)) rfl
  exact ⟨h.1, h.2 cfgChecks oracleExn dbSynced 5⟩

/-! ### Helper lemmas about the store operations -/

/-- The record id is untouched by every whitelisted field assignment. -/
theorem apply_record_field_id (r : RecordRow) (kv : String × Value) :
    (Database.apply_record_field r kv).id = r.id := by
  unfold Database.apply_record_field
  split_ifs <;> rfl

/-- The record id is untouched by any sequence of whitelisted field
assignments. -/
theorem foldl_apply_record_field_id (updates : List (String × Value))
    (r : RecordRow) :
    (updates.foldl Database.apply_record_field r).id = r.id := by
  induction updates generalizing r with
  | nil => rfl
  | cons kv t ih => rw [List.foldl_cons, ih, apply_record_field_id]

/-- The zone id is untouched by every whitelisted field assignment. -/
theorem apply_zone_field_id (z : ZoneRow) (kv : String × Value) :
    (Database.apply_zone_field z kv).id = z.id := by
  unfold Database.apply_zone_field
  split_ifs <;> rfl

/-- The zone id is untouched by any sequence of whitelisted field
assignments. -/
theorem foldl_apply_zone_field_id (updates : List (String × Value))
    (z : ZoneRow) :
    (updates.foldl Database.apply_zone_field z).id = z.id := by
  induction updates generalizing z with
  | nil => rfl
  | cons kv t ih => rw [List.foldl_cons, ih, apply_zone_field_id]

/-- The generic record update touches no table other than `records`. -/
theorem update_record_frame (db : Database) (rid : Nat)
    (kwargs : List (String × Value)) (now : Nat) :
    ((db.update_record rid kwargs now).2).zones = db.zones
    ∧ ((db.update_record rid kwargs now).2).ip_addresses = db.ip_addresses
    ∧ ((db.update_record rid kwargs now).2).dns_updates = db.dns_updates := by
  unfold Database.update_record
  dsimp only
  by_cases h : (kwargs.filter
      (fun kv => Database.record_allowed_fields.contains kv.1)).isEmpty
  · rw [if_pos h]
    exact ⟨rfl, rfl, rfl⟩
  · rw [if_neg h]
    exact ⟨rfl, rfl, rfl⟩

/-- The IP-state write touches no table other than `ip_addresses`. -/
theorem update_ip_address_frame (db : Database) (rid : Nat) (ip : String)
    (ch : Bool) (now : Nat) :
    (Database.update_ip_address db rid ip ch now).records = db.records
    ∧ (Database.update_ip_address db rid ip ch now).zones = db.zones
    ∧ (Database.update_ip_address db rid ip ch now).dns_updates
        = db.dns_updates := by
  unfold Database.update_ip_address
  rcases h : Database.get_ip_address db rid with _ | row <;> simp [h]

/-- The result of the converge-phase sync-success update on the records
table, spelled out per row. -/
theorem update_record_synced_records (db : Database) (rid : Nat) (n now : Nat) :
    ((db.update_record rid
        [("sync_status", Value.text "synced"), ("last_synced_at", Value.int n)]
        now).2).records
    = db.records.map (fun row => if row.id == rid then
        { row with sync_status := "synced", last_synced_at := some n,
                   updated_at := now }
      else row) := rfl

/-- The result of the converge-phase orphan update on the records table,
spelled out per row: the provider id is cleared and the status set to
orphaned in the same write. -/
theorem update_record_orphaned_records (db : Database) (rid : Nat) (now : Nat) :
    ((db.update_record rid
        [("provider_record_id", Value.null), ("sync_status", Value.text "orphaned")]
        now).2).records
    = db.records.map (fun row => if row.id == rid then
        { row with provider_record_id := none, sync_status := "orphaned",
                   updated_at := now }
      else row) := rfl

/-- Auxiliary: the changed-IP row rewrite, traced through `find?`. -/
theorem find?_update_ip_rows (l : List IPRow) (rid : Nat) (ip : String)
    (now : Nat) (row : IPRow)
    (h : l.find? (fun r => r.record_id == rid) = some row) :
    (l.map (fun r => if r.record_id == rid then
        { r with ip_address := ip, last_checked_at := now,
                 last_changed_at := now }
      else r)).find? (fun r => r.record_id == rid)
    = some ⟨rid, ip, now, now⟩ := by
  induction l with
  | nil => simp at h
  | cons a t ih =>
    by_cases ha : a.record_id = rid
    · rw [List.map_cons]
      rw [List.find?_cons_of_pos _ (by simp [ha])]
      simp [ha]
    · rw [List.find?_cons_of_neg _ (by simp [ha])] at h
      rw [List.map_cons, List.find?_cons_of_neg _ (by simp [ha])]
      exact ih h

/-- After a changed IP-state write, the unique IP row of the record
holds the new address with both timestamps set to the write time. -/
theorem get_ip_address_after_update (db : Database) (rid : Nat) (ip : String)
    (now : Nat) :
    Database.get_ip_address (Database.update_ip_address db rid ip true now) rid
    = some ⟨rid, ip, now, now⟩ := by
  unfold Database.update_ip_address
  rcases h : Database.get_ip_address db rid with _ | row
  · unfold Database.get_ip_address at h ⊢
    simp only [List.find?_append, h, Option.none_or]
    simp [List.find?]
  · unfold Database.get_ip_address at h ⊢
    simp only [h, if_true]
    exact find?_update_ip_rows db.ip_addresses rid ip now row h

/-- Invariant transfer along a row-wise map of the records table. -/
theorem all_map_pres {α : Type} (p : α → Bool) (f : α → α) (l : List α)
    (h : l.all p = true) (hf : ∀ x ∈ l, p x = true → p (f x) = true) :
    (l.map f).all p = true := by
  induction l with
  | nil => simp
  | cons a t ih =>
    simp only [List.all_cons, Bool.and_eq_true] at h
    simp only [List.map_cons, List.all_cons, Bool.and_eq_true]
    exact ⟨hf a (by simp) h.1,
      ih h.2 (fun x hx hpx => hf x (by simp [hx]) hpx)⟩

/-! ### C9 -/

/-- Counterexample to C9 as stated: the type of a record is an allowed
field of the generic `update_record` helper, so it CAN be mutated
through the generic update path — one row is affected and its
`record_type` flips from A to AAAA. -/
theorem c9_counterexample :
    (Database.update_record dbSynced 1 [("record_type", Value.text "AAAA")] 7).1 = 1
    ∧ ((Database.update_record dbSynced 1 [("record_type", Value.text "AAAA")]
        7).2.records.map (fun r => r.record_type)) = ["AAAA"]
    ∧ dbSynced.records.map (fun r => r.record_type) = ["A"] := by
  decide

/-- C9 (amended): the generic per-entity update helpers whitelist
mutable fields — a call passing only unknown fields changes no row and
returns 0, and the identity ids of records and zones cannot be mutated
through these paths; the type of a record, however, is in the
`update_record` whitelist and can be mutated. -/
theorem c9_whitelist_amended :
    (∀ (db : Database) (rid : Nat) (kwargs : List (String × Value)) (now : Nat),
      (∀ kv ∈ kwargs, Database.record_allowed_fields.contains kv.1 = false) →
      Database.update_record db rid kwargs now = (0, db))
    ∧ (∀ (db : Database) (zid : Nat) (kwargs : List (String × Value)) (now : Nat),
      (∀ kv ∈ kwargs, Database.zone_allowed_fields.contains kv.1 = false) →
      Database.update_zone db zid kwargs now = (0, db))
    ∧ (∀ (db : Database) (rid : Nat) (kwargs : List (String × Value)) (now : Nat),
      ((Database.update_record db rid kwargs now).2).records.map (fun r => r.id)
        = db.records.map (fun r => r.id))
    ∧ (∀ (db : Database) (zid : Nat) (kwargs : List (String × Value)) (now : Nat),
      ((Database.update_zone db zid kwargs now).2).zones.map (fun z => z.id)
        = db.zones.map (fun z => z.id)) := by
  refine ⟨?_, ?_, ?_, ?_⟩
  · intro db rid kwargs now h
    have hf : kwargs.filter
        (fun kv => Database.record_allowed_fields.contains kv.1) = [] :=
      List.filter_eq_nil_iff.mpr (fun kv hm => by rw [h kv hm]; simp)
    unfold Database.update_record
    dsimp only
    rw [hf]
    rfl
  · intro db zid kwargs now h
    have hf : kwargs.filter
        (fun kv => Database.zone_allowed_fields.contains kv.1) = [] :=
      List.filter_eq_nil_iff.mpr (fun kv hm => by rw [h kv hm]; simp)
    unfold Database.update_zone
    dsimp only
    rw [hf]
    rfl
  · intro db rid kwargs now
    unfold Database.update_record
    dsimp only
    by_cases h : (kwargs.filter
        (fun kv => Database.record_allowed_fields.contains kv.1)).isEmpty
    · rw [if_pos h]
    · rw [if_neg h]
      simp only [List.map_map]
      apply List.map_congr_left
      intro r _
      by_cases hr : r.id = rid <;>
        simp [hr, foldl_apply_record_field_id]
  · intro db zid kwargs now
    unfold Database.update_zone
    dsimp only
    by_cases h : (kwargs.filter
        (fun kv => Database.zone_allowed_fields.contains kv.1)).isEmpty
    · rw [if_pos h]
    · rw [if_neg h]
      simp only [List.map_map]
      apply List.map_congr_left
      intro z _
      by_cases hz : z.id = zid <;>
        simp [hz, foldl_apply_zone_field_id]

/-- Witness for C9 (amended): unknown fields are ignored on a concrete
store; ids survive a whitelisted mutation. -/
theorem c9_witness :
    Database.update_record dbSynced 1 [("id", Value.int 99), ("zone_id", Value.int 99)] 3
      = (0, dbSynced)
    ∧ Database.update_zone dbSynced 1 [("id", Value.int 99)] 3 = (0, dbSynced)
    ∧ ((Database.update_record dbSynced 1 [("record_type", Value.text "AAAA")]
        7).2.records.map (fun r => r.id)) = dbSynced.records.map (fun r => r.id) := by
  refine ⟨?_, ?_, ?_⟩
  · exact c9_whitelist_amended.1 dbSynced 1 _ 3 (by decide)
  · exact c9_whitelist_amended.2.1 dbSynced 1 _ 3 (by decide)
  · exact c9_whitelist_amended.2.2.1 dbSynced 1 _ 7

/-! ### C5 -/

/-- Counterexample to C5 as stated: the zone-level sync backfills the
provider record id of a matched orphaned record but does NOT set its
`sync_status` to synced — the status stays orphaned after the match. -/
theorem c5_counterexample :
    ((Application.sync_match prsDotted dbOrphan recOrphanNoId 7).records.map
      (fun row => (row.provider_record_id, row.sync_status)))
    = [(some "PR1", "orphaned")] := by
  decide

/-- C5 (amended): for every local record matched against a fetched
provider record by normalized name (trailing dots stripped) and type —
the same matching step runs again on the re-fetch after creation — the
engine backfills the provider id into the matching rows, leaves the
`sync_status` column (and every other table) unchanged, and rows with a
different id are untouched. -/
theorem c5_sync_backfills_id_only (prs : List ProviderRecord) (db : Database)
    (dbr : RecordRow) (pr : ProviderRecord) (now : Nat)
    (hfind : prs.find? (fun q =>
        Application.rstripDots q.name == Application.rstripDots dbr.record_name
        && q.type == dbr.record_type) = some pr) :
    ((Application.sync_match prs db dbr now).records.map (fun row => row.sync_status))
      = db.records.map (fun row => row.sync_status)
    ∧ (∀ row ∈ (Application.sync_match prs db dbr now).records,
        row.id = dbr.id → row.provider_record_id = some pr.id)
    ∧ (∀ row ∈ (Application.sync_match prs db dbr now).records,
        row.id ≠ dbr.id → row ∈ db.records)
    ∧ (Application.sync_match prs db dbr now).zones = db.zones
    ∧ (Application.sync_match prs db dbr now).ip_addresses = db.ip_addresses
    ∧ (Application.sync_match prs db dbr now).dns_updates = db.dns_updates := by
  have hsm : Application.sync_match prs db dbr now
      = (db.update_record_provider_id dbr.id pr.id now).2 := by
    unfold Application.sync_match
    rw [hfind]
  rw [hsm]
  unfold Database.update_record_provider_id
  refine ⟨?_, ?_, ?_, rfl, rfl, rfl⟩
  · simp only [List.map_map]
    apply List.map_congr_left
    intro r _
    by_cases hr : r.id = dbr.id <;> simp [hr]
  · intro row hrow hid
    simp only [List.mem_map] at hrow
    obtain ⟨old, _, hold⟩ := hrow
    by_cases ho : old.id = dbr.id
    · rw [← hold]
      simp [ho]
    · exfalso
      rw [← hold] at hid
      simp [ho] at hid
  · intro row hrow hid
    simp only [List.mem_map] at hrow
    obtain ⟨old, hmem, hold⟩ := hrow
    by_cases ho : old.id = dbr.id
    · exfalso
      rw [← hold] at hid
      simp [ho] at hid
    · rw [← hold]
      simp [ho]
      exact hmem

/-- Witness for C5 (amended): a concrete match through a trailing-dot
provider name against a synced store. -/
theorem c5_witness :
    ((Application.sync_match prsDotted dbSynced recSynced 7).records.map
      (fun row => row.sync_status))
    = dbSynced.records.map (fun row => row.sync_status) :=
  (c5_sync_backfills_id_only prsDotted dbSynced recSynced
    ⟨"PR1", "www.example.com.", "A", "5.6.7.8", 3600, false⟩ 7 (by decide)).1

/-! ### Converge-phase case analysis, shared by the invariant and
orphan-transition claims -/

/-- A truthy nullable string is non-null. -/
theorem truthyOpt_isSome (o : Option String) (h : truthyOpt o = true) :
    o.isSome = true := by
  cases o <;> simp_all [truthyOpt]

/-- The invariant only reads the records table. -/
theorem recordInv_congr (db1 db2 : Database) (h : db1.records = db2.records) :
    recordInv db1 = recordInv db2 := by
  simp [recordInv, h]

/-- Every run of `_update_provider_record` leaves the records table
unchanged, marks the record synced (only with a truthy in-memory
provider id), or orphans it (only with sync checks on and the absence
confirmed by the provider). -/
theorem upr_records_cases (cfg : Application.Config)
    (p : Application.ProviderOracle) (db : Database)
    (r : Application.MemRecord) (now : Nat) :
    (((Application.update_provider_record cfg p db r now).2).records = db.records)
    ∨ ((((Application.update_provider_record cfg p db r now).2).records
        = db.records.map (fun row => if row.id == r.id then
            { row with sync_status := "synced", last_synced_at := some now,
                       updated_at := now }
          else row))
        ∧ truthyOpt r.provider_record_id = true)
    ∨ ((((Application.update_provider_record cfg p db r now).2).records
        = db.records.map (fun row => if row.id == r.id then
            { row with provider_record_id := none, sync_status := "orphaned",
                       updated_at := now }
          else row))
        ∧ cfg.daemon_sync_checks = true ∧ Application.confirmedAbsent p db r) := by
  unfold Application.update_provider_record
  by_cases htp : truthyOpt r.provider_record_id
  · rcases hz : db.get_zone_by_id r.zone_id with _ | z
    · simp [htp, hz]
    · by_cases hpz : truthyOpt z.provider_zone_id
      · by_cases hcl : p.clientOk z.id
        · rcases hu : p.update r.id with _ | _ | _ | m
          · by_cases hd : cfg.daemon_sync_checks
            · refine Or.inr (Or.inl ⟨?_, htp⟩)
              simp only [htp, hz, hpz, hcl, hu, hd]
              simp [update_record_synced_records]
            · simp [htp, hz, hpz, hcl, hu, hd]
          · by_cases hd : cfg.daemon_sync_checks
            · rcases hf : p.fetch z.id with _ | prs
              · simp [htp, hz, hpz, hcl, hu, hd, hf]
              · by_cases hany : prs.any
                    (fun pr => some pr.id == r.provider_record_id)
                · simp [htp, hz, hpz, hcl, hu, hd, hf, hany]
                · refine Or.inr (Or.inr ⟨?_, hd, Or.inr ⟨hu, z, prs, hz, hf, by simpa using hany⟩⟩)
                  simp only [htp, hz, hpz, hcl, hu, hd, hf]
                  simp [hany, update_record_orphaned_records]
            · simp [htp, hz, hpz, hcl, hu, hd]
          · by_cases hd : cfg.daemon_sync_checks
            · refine Or.inr (Or.inr ⟨?_, hd, Or.inl hu⟩)
              simp only [htp, hz, hpz, hcl, hu, hd]
              simp [update_record_orphaned_records]
            · simp [htp, hz, hpz, hcl, hu, hd]
          · simp [htp, hz, hpz, hcl, hu]
        · simp [htp, hz, hpz, hcl]
      · simp [htp, hz, hpz]
  · simp [htp]

/-- The records table after one per-record save step is either untouched
or exactly what `_update_provider_record` produced: the refresh path,
the audit appends and the IP-state writes never touch it. -/
theorem save_records_table_cases (cfg : Application.Config)
    (p : Application.ProviderOracle) (net : Application.Network)
    (db : Database) (r : Application.MemRecord) (now : Nat) :
    ((Application.process_record_save cfg p net db r now).1).records = db.records
    ∨ ((Application.process_record_save cfg p net db r now).1).records
        = ((Application.update_provider_record cfg p db r now).2).records := by
  unfold Application.process_record_save
  by_cases hnu : r.needs_update
  · simp only [hnu, Bool.not_true, Bool.false_eq_true, if_false]
    by_cases htp : truthyOpt r.provider_record_id
    · simp only [htp, Bool.not_true, Bool.false_eq_true, if_false]
      by_cases hok : (Application.update_provider_record cfg p db r now).1
      · right
        simp only [hok, if_true]
        exact (update_ip_address_frame _ r.id (r.new_ip.getD "") true now).1
      · right
        simp only [hok, Bool.false_eq_true, if_false]
        rfl
    · left
      simp [htp, Database.log_dns_update]
  · have hnu' : r.needs_update = false := by simpa using hnu
    left
    simp only [hnu', Bool.not_false, if_true]
    by_cases hA : r.record_type == "A"
    · simp only [hA, if_true]
      rcases net.ipv4_address with _ | ip
      · rfl
      · exact (update_ip_address_frame db r.id ip false now).1
    · simp only [hA, Bool.false_eq_true, if_false]
      by_cases hB : r.record_type == "AAAA"
      · simp only [hB, if_true]
        rcases net.ipv6_address with _ | ip
        · rfl
        · exact (update_ip_address_frame db r.id ip false now).1
      · simp [hA, hB]

/-! ### C1 -/

/-- Counterexample to C1 as stated: `add_record` with its default
arguments creates a record with `sync_status` synced and a null
`provider_record_id`, violating the invariant on a store that satisfied
it. -/
theorem c1_counterexample :
    recordInv db0 = true
    ∧ recordInv (Database.add_record db0 1 "www.example.com" "A" 5).2 = false
    ∧ ((Database.add_record db0 1 "www.example.com" "A" 5).2.records.map
        (fun r => (r.sync_status, r.provider_record_id)))
      = [("synced", none)] := by
  decide

/-- Invariant preservation of the provider-id backfill. -/
theorem recordInv_update_provider_id (db : Database) (rid : Nat) (pid : String)
    (now : Nat) (h : recordInv db = true) :
    recordInv (Database.update_record_provider_id db rid pid now).2 = true := by
  unfold recordInv at h ⊢
  unfold Database.update_record_provider_id
  dsimp only
  apply all_map_pres _ _ _ h
  intro x _ hx
  by_cases hid : x.id = rid
  · simp [rowInv, hid]
  · simpa [hid] using hx

/-- C1 (amended): the sync-status invariant — synced records carry a
non-null provider id — is preserved by every converge-phase store
operation (provider-id backfill, zone-level sync matching, the whole
per-record save step, the latter under the cycle assumption that the
in-memory snapshot of the provider id agrees with the stored row), and
by `add_record` whenever the inserted record has a non-synced status or
a non-null provider id; with its default arguments (synced, null)
`add_record` violates it. -/
theorem c1_invariant_amended :
    (∀ (db : Database) (zid : Nat) (rname rtype : String) (now : Nat)
        (pid : Option String) (ttl : Nat) (en man : Bool) (ss : String),
      recordInv db = true → (ss ≠ "synced" ∨ pid.isSome = true) →
      recordInv (Database.add_record db zid rname rtype now pid ttl en man ss).2 = true)
    ∧ (∀ (db : Database) (rid : Nat) (pid : String) (now : Nat),
      recordInv db = true →
      recordInv (Database.update_record_provider_id db rid pid now).2 = true)
    ∧ (∀ (prs : List ProviderRecord) (db : Database) (dbr : RecordRow) (now : Nat),
      recordInv db = true →
      recordInv (Application.sync_match prs db dbr now) = true)
    ∧ (∀ (cfg : Application.Config) (p : Application.ProviderOracle)
        (net : Application.Network) (db : Database)
        (r : Application.MemRecord) (now : Nat),
      recordInv db = true →
      (∀ row ∈ db.records, row.id = r.id →
        row.provider_record_id = r.provider_record_id) →
      recordInv (Application.process_record_save cfg p net db r now).1 = true) := by
  refine ⟨?_, ?_, ?_, ?_⟩
  · intro db zid rname rtype now pid ttl en man ss hinv hok
    unfold recordInv at hinv ⊢
    unfold Database.add_record
    dsimp only
    simp only [List.all_append, Bool.and_eq_true]
    refine ⟨hinv, ?_⟩
    rcases hok with hss | hps
    · simp [rowInv, hss]
    · simp [rowInv, hps]
  · intro db rid pid now h
    exact recordInv_update_provider_id db rid pid now h
  · intro prs db dbr now h
    unfold Application.sync_match
    rcases hfind : prs.find? (fun q =>
        Application.rstripDots q.name == Application.rstripDots dbr.record_name
        && q.type == dbr.record_type) with _ | pr
    · simp only [hfind]
      exact h
    · simp only [hfind]
      exact recordInv_update_provider_id db dbr.id pr.id now h
  · intro cfg p net db r now hinv hsnap
    rcases save_records_table_cases cfg p net db r now with hrec | hrec
    · rw [recordInv_congr _ db hrec]
      exact hinv
    · rw [recordInv_congr _ ((Application.update_provider_record cfg p db r now).2) hrec]
      rcases upr_records_cases cfg p db r now with hc | ⟨hc, htp⟩ | ⟨hc, _, _⟩
      · rw [recordInv_congr _ db hc]
        exact hinv
      · unfold recordInv at hinv ⊢
        rw [hc]
        apply all_map_pres _ _ _ hinv
        intro x hx hxi
        by_cases hid : x.id = r.id
        · have hps := hsnap x hx hid
          have hs : x.provider_record_id.isSome = true :=
            truthyOpt_isSome _ (by rw [hps]; exact htp)
          simp [rowInv, hid, hs]
        · simpa [hid] using hxi
      · unfold recordInv at hinv ⊢
        rw [hc]
        apply all_map_pres _ _ _ hinv
        intro x _ hxi
        by_cases hid : x.id = r.id
        · simp [rowInv, hid]
        · simpa [hid] using hxi

/-- Witness for C1 (amended): each preserved operation evaluated on a
concrete store. -/
theorem c1_witness :
    recordInv (Database.add_record db0 1 "www.example.com" "A" 5 none 3600
      true true "local_only").2 = true
    ∧ recordInv (Database.update_record_provider_id dbOrphan 1 "R9" 6).2 = true
    ∧ recordInv (Application.sync_match prsDotted dbOrphan recOrphanNoId 7) = true
    ∧ recordInv (Application.process_record_save cfgChecks oracleOk netV4
        dbSynced memNeedsUpdate 8).1 = true := by
  refine ⟨?_, ?_, ?_, ?_⟩
  · exact c1_invariant_amended.1 db0 1 "www.example.com" "A" 5 none 3600
      true true "local_only" (by decide) (Or.inl (by decide))
  · exact c1_invariant_amended.2.1 dbOrphan 1 "R9" 6 (by decide)
  · exact c1_invariant_amended.2.2.1 prsDotted dbOrphan recOrphanNoId 7 (by decide)
  · exact c1_invariant_amended.2.2.2 cfgChecks oracleOk netV4 dbSynced
      memNeedsUpdate 8 (by decide) (by decide)

/-! ### C3 -/

/-- Counterexample to C3 as stated: with `daemon_sync_checks` disabled,
a successful provider update persists the IP and logs a success audit
entry but does NOT set `sync_status` to synced — a record that was
local_only stays local_only. -/
theorem c3_counterexample :
    (Application.process_record_save cfgNoChecks oracleOk netV4 dbLocalOnly
      memNeedsUpdate 9).2 = (1, 0)
    ∧ ((Application.process_record_save cfgNoChecks oracleOk netV4 dbLocalOnly
        memNeedsUpdate 9).1.records.map (fun row => row.sync_status))
      = ["local_only"]
    ∧ ((Application.process_record_save cfgNoChecks oracleOk netV4 dbLocalOnly
        memNeedsUpdate 9).1.dns_updates.map (fun e => e.status)) = ["success"] := by
  decide

/-- C3 (amended): with `daemon_sync_checks` enabled, for every record
flagged as needing update with a confirmed provider id (and reachable
zone, provider zone id and API client), a successful provider update
makes the engine persist the new IP with the change timestamp bumped,
append a success audit entry recording old and new IP, and set the
record sync_status to synced (with `last_synced_at` stamped); without
the flag the sync_status write is skipped. -/
theorem c3_success_updates (cfg : Application.Config)
    (p : Application.ProviderOracle) (net : Application.Network)
    (db : Database) (r : Application.MemRecord) (now : Nat) (z : ZoneRow)
    (pid pz nip : String)
    (hchk : cfg.daemon_sync_checks = true)
    (hnu : r.needs_update = true)
    (hpid : r.provider_record_id = some pid) (hpne : pid ≠ "")
    (hz : db.get_zone_by_id r.zone_id = some z)
    (hpz : z.provider_zone_id = some pz) (hpzne : pz ≠ "")
    (hcl : p.clientOk z.id = true)
    (hok : p.update r.id = .ok)
    (hnip : r.new_ip = some nip) :
    ((Application.process_record_save cfg p net db r now).2 = (1, 0))
    ∧ ((Application.process_record_save cfg p net db r now).1).dns_updates
        = db.dns_updates
          ++ [⟨r.id, r.old_ip, r.new_ip, "success", none, now⟩]
    ∧ Database.get_ip_address
        ((Application.process_record_save cfg p net db r now).1) r.id
        = some ⟨r.id, nip, now, now⟩
    ∧ (∀ row ∈ ((Application.process_record_save cfg p net db r now).1).records,
        row.id = r.id →
          row.sync_status = "synced" ∧ row.last_synced_at = some now) := by
  have htp : truthyOpt r.provider_record_id = true := by
    simp [hpid, truthyOpt, hpne]
  have hpzt : truthyOpt z.provider_zone_id = true := by
    simp [hpz, truthyOpt, hpzne]
  have hupr : Application.update_provider_record cfg p db r now
      = (true, (db.update_record r.id
          [("sync_status", Value.text "synced"), ("last_synced_at", Value.int now)]
          now).2) := by
    unfold Application.update_provider_record
    simp [htp, hz, hpzt, hcl, hok, hchk]
  have hsave : Application.process_record_save cfg p net db r now
      = (Database.log_dns_update
          (Database.update_ip_address
            ((db.update_record r.id
              [("sync_status", Value.text "synced"), ("last_synced_at", Value.int now)]
              now).2)
            r.id nip true now)
          r.id r.old_ip r.new_ip "success" none now, 1, 0) := by
    unfold Application.process_record_save
    simp [hnu, htp, hupr, hnip]
  rw [hsave]
  have hframe := (update_ip_address_frame
    ((db.update_record r.id
      [("sync_status", Value.text "synced"), ("last_synced_at", Value.int now)]
      now).2) r.id nip true now)
  have hrframe := update_record_frame db r.id
    [("sync_status", Value.text "synced"), ("last_synced_at", Value.int now)] now
  refine ⟨rfl, ?_, ?_, ?_⟩
  · show _ ++ _ = _ ++ _
    rw [hframe.2.2, hrframe.2.2]
  · exact get_ip_address_after_update _ r.id nip now
  · intro row hrow hid
    have hrow2 : row ∈ ((db.update_record r.id
        [("sync_status", Value.text "synced"), ("last_synced_at", Value.int now)]
        now).2).records := by
      rw [← hframe.1]
      exact hrow
    rw [update_record_synced_records] at hrow2
    obtain ⟨old, hmem, hold⟩ := List.mem_map.mp hrow2
    by_cases ho : old.id = r.id
    · rw [← hold]
      simp [ho]
    · rw [← hold] at hid
      simp [ho] at hid

/-- Witness for C3 (amended): the engine scenario — cached 1.2.3.4,
detected 5.6.7.8, provider update succeeds. -/
theorem c3_witness :
    (Application.process_record_save cfgChecks oracleOk netV4 dbSynced
      memNeedsUpdate 9).2 = (1, 0)
    ∧ ((Application.process_record_save cfgChecks oracleOk netV4 dbSynced
        memNeedsUpdate 9).1).dns_updates
      = dbSynced.dns_updates
        ++ [⟨1, some "1.2.3.4", some "5.6.7.8", "success", none, 9⟩]
    ∧ Database.get_ip_address
        ((Application.process_record_save cfgChecks oracleOk netV4 dbSynced
          memNeedsUpdate 9).1) 1 = some ⟨1, "5.6.7.8", 9, 9⟩ := by
  have h := c3_success_updates cfgChecks oracleOk netV4 dbSynced memNeedsUpdate
    9 zone1 "R1" "Z1" "5.6.7.8" rfl rfl rfl (by decide) (by decide) rfl
    (by decide) rfl rfl rfl
  exact ⟨h.1, h.2.1, h.2.2.1⟩

/-! ### C2 -/

/-- Every unconfirmed failure path of `_update_provider_record` returns
failure with the store untouched. -/
theorem upr_unconfirmed (cfg : Application.Config)
    (p : Application.ProviderOracle) (db : Database)
    (r : Application.MemRecord) (now : Nat)
    (htp : truthyOpt r.provider_record_id = true)
    (h : Application.unconfirmedFailure cfg p db r) :
    Application.update_provider_record cfg p db r now = (false, db) := by
  unfold Application.update_provider_record
  rcases h with h | h | ⟨z, hz, hcase⟩
  · rw [htp] at h
    exact absurd h (by simp)
  · simp [htp, h]
  · rcases hcase with hpz | hcl | ⟨m, hm⟩ | ⟨hf, hsub⟩ | ⟨hnf, hd⟩
    · simp [htp, hz, hpz]
    · simp [htp, hz, hcl]
    · by_cases hpz : truthyOpt z.provider_zone_id
      · by_cases hcl2 : p.clientOk z.id
        · simp [htp, hz, hpz, hcl2, hm]
        · simp [htp, hz, hpz, hcl2]
      · simp [htp, hz, hpz]
    · by_cases hpz : truthyOpt z.provider_zone_id
      · by_cases hcl2 : p.clientOk z.id
        · rcases hsub with hd | hfN | ⟨prs, hfS, hany⟩
          · simp [htp, hz, hpz, hcl2, hf, hd]
          · by_cases hd2 : cfg.daemon_sync_checks
            · simp [htp, hz, hpz, hcl2, hf, hd2, hfN]
            · simp [htp, hz, hpz, hcl2, hf, hd2]
          · by_cases hd2 : cfg.daemon_sync_checks
            · simp [htp, hz, hpz, hcl2, hf, hd2, hfS, hany]
            · simp [htp, hz, hpz, hcl2, hf, hd2]
        · simp [htp, hz, hpz, hcl2]
      · simp [htp, hz, hpz]
    · by_cases hpz : truthyOpt z.provider_zone_id
      · by_cases hcl2 : p.clientOk z.id
        · simp [htp, hz, hpz, hcl2, hnf, hd]
        · simp [htp, hz, hpz, hcl2]
      · simp [htp, hz, hpz]

/-- C2: in the converge phase, a record becomes orphaned only when the
provider confirmed its absence (a `RecordNotFoundError`, or the id
missing from a successfully fetched listing) with sync checks on, and a
newly orphaned row has its provider id cleared in the same write; on any
unconfirmed update failure the records and IP tables are left unchanged
and exactly one failure audit entry carrying the error is appended, with
the record counted as failed; the record loop always continues with the
remaining records. -/
theorem c2_orphan_and_failure_isolation (cfg : Application.Config)
    (p : Application.ProviderOracle) (net : Application.Network)
    (db : Database) (r : Application.MemRecord) (now : Nat)
    (rest : List Application.MemRecord)
    (hnu : r.needs_update = true) :
    (∀ row ∈ ((Application.process_record_save cfg p net db r now).1).records,
      row.sync_status = "orphaned" →
      row ∈ db.records
      ∨ (row.id = r.id ∧ row.provider_record_id = none
          ∧ cfg.daemon_sync_checks = true
          ∧ Application.confirmedAbsent p db r))
    ∧ (Application.unconfirmedFailure cfg p db r →
        ((Application.process_record_save cfg p net db r now).1.records = db.records
        ∧ (Application.process_record_save cfg p net db r now).1.ip_addresses
            = db.ip_addresses
        ∧ (∃ msg, (Application.process_record_save cfg p net db r now).1.dns_updates
            = db.dns_updates
              ++ [⟨r.id, r.old_ip, r.new_ip, "failed", some msg, now⟩])
        ∧ (Application.process_record_save cfg p net db r now).2 = (0, 1)))
    ∧ Application.save_records cfg p net now db (r :: rest)
        = ((Application.save_records cfg p net now
              (Application.process_record_save cfg p net db r now).1 rest).1,
           (Application.process_record_save cfg p net db r now).2.1
             + (Application.save_records cfg p net now
                 (Application.process_record_save cfg p net db r now).1 rest).2.1,
           (Application.process_record_save cfg p net db r now).2.2
             + (Application.save_records cfg p net now
                 (Application.process_record_save cfg p net db r now).1 rest).2.2) := by
  refine ⟨?_, ?_, rfl⟩
  · intro row hrow hss
    rcases save_records_table_cases cfg p net db r now with hrec | hrec
    · rw [hrec] at hrow
      exact Or.inl hrow
    · rw [hrec] at hrow
      rcases upr_records_cases cfg p db r now with hc | ⟨hc, _⟩ | ⟨hc, hd, hconf⟩
      · rw [hc] at hrow
        exact Or.inl hrow
      · rw [hc] at hrow
        obtain ⟨old, hmem, hold⟩ := List.mem_map.mp hrow
        by_cases ho : old.id = r.id
        · rw [← hold] at hss
          simp [ho] at hss
        · left
          rw [← hold]
          simpa [ho] using hmem
      · rw [hc] at hrow
        obtain ⟨old, hmem, hold⟩ := List.mem_map.mp hrow
        by_cases ho : old.id = r.id
        · right
          refine ⟨?_, ?_, hd, hconf⟩
          · rw [← hold]
            simp [ho]
          · rw [← hold]
            simp [ho]
        · left
          rw [← hold]
          simpa [ho] using hmem
  · intro hunconf
    by_cases htp : truthyOpt r.provider_record_id
    · have hupr := upr_unconfirmed cfg p db r now htp hunconf
      have hsave : Application.process_record_save cfg p net db r now
          = (Database.log_dns_update db r.id r.old_ip r.new_ip "failed"
              (some "Provider API update failed") now, 0, 1) := by
        unfold Application.process_record_save
        simp [hnu, htp, hupr]
      rw [hsave]
      exact ⟨rfl, rfl, ⟨"Provider API update failed", rfl⟩, rfl⟩
    · have hsave : Application.process_record_save cfg p net db r now
          = (Database.log_dns_update db r.id r.old_ip r.new_ip "failed"
              (some "Missing provider_record_id after sync") now, 0, 1) := by
        unfold Application.process_record_save
        simp [hnu, htp]
      rw [hsave]
      exact ⟨rfl, rfl, ⟨"Missing provider_record_id after sync", rfl⟩, rfl⟩

/-- Witness for C2: a timed-out update (an exception from the client)
leaves the concrete store records and IP state untouched and appends one
failure audit entry. -/
theorem c2_witness :
    (Application.process_record_save cfgChecks oracleExn netV4 dbSynced
      memNeedsUpdate 9).1.records = dbSynced.records
    ∧ (Application.process_record_save cfgChecks oracleExn netV4 dbSynced
        memNeedsUpdate 9).2 = (0, 1) := by
  have hunconf : Application.unconfirmedFailure cfgChecks oracleExn dbSynced
      memNeedsUpdate :=
    Or.inr (Or.inr ⟨zone1, by decide,
      Or.inr (Or.inr (Or.inl ⟨"timeout", rfl⟩))⟩)
  have h := (c2_orphan_and_failure_isolation cfgChecks oracleExn netV4 dbSynced
    memNeedsUpdate 9 [] rfl).2.1 hunconf
  exact ⟨h.1, h.2.2.2⟩

end DynDNS
